import Mathlib

/-!
Verification of the marketing-budget calculation engine
(`useMarketingCalculations`, src/unnamed/part_001) against its
natural-language specification.

Modelling conventions:
* JavaScript numbers are modelled as exact rationals (ℚ).
* `Math.round` is modelled by `jsRound x = ⌊x + 1/2⌋`, which matches the
  JS semantics of rounding halves toward positive infinity.
* A JS division that can actually divide by zero (only the unguarded
  `averageCPL` division in the source) is modelled by `jsDiv`, returning
  `none` for the non-finite JS results (`Infinity`, `-Infinity`, `NaN`)
  and `some` of the exact quotient otherwise.  The three guarded
  divisions (`roi`, `costPerAcquisition`, `ltvCacRatio`) only divide
  under a strict-positivity guard on the denominator, so their ℚ
  transcription is exact and total.
* Constant names from `BUSINESS_CONSTANTS` (src/utils/constants.js) are
  rendered in camelCase (e.g. `weeksPerYear` for
  `TIME_PERIODS.WEEKS_PER_YEAR`, `googleFranchiseRatio` for
  `CHANNEL_SPLITS.GOOGLE_FRANCHISE_RATIO`).
-/

/-- The flat input record destructured at the top of
`useMarketingCalculations` (src/unnamed/part_001, lines 31-46). -/
structure Inputs where
  rmfRegionCount : ℚ
  serviceLeadsPerWeekRMF : ℚ
  aucklandServiceLeadsPerWeek : ℚ
  franchiseLeadsPerMonth : ℚ
  commercialLeadsPerQuarter : ℚ
  googleServiceCPL : ℚ
  metaServiceCPL : ℚ
  googleFranchiseCPL : ℚ
  metaFranchiseCPL : ℚ
  linkedInCommercialCPL : ℚ
  avgMonthlyServiceFee : ℚ
  avgCustomerRetentionMonths : ℚ
  serviceLeadConversionRate : ℚ
  googleServiceSplit : ℚ
deriving DecidableEq, Repr

/-- BUSINESS_CONSTANTS.TIME_PERIODS.WEEKS_PER_YEAR -/
def weeksPerYear : ℚ := 52

/-- BUSINESS_CONSTANTS.TIME_PERIODS.MONTHS_PER_YEAR -/
def monthsPerYear : ℚ := 12

/-- BUSINESS_CONSTANTS.TIME_PERIODS.QUARTERS_PER_YEAR -/
def quartersPerYear : ℚ := 4

/-- BUSINESS_CONSTANTS.CHANNEL_SPLITS.GOOGLE_FRANCHISE_RATIO -/
def googleFranchiseRatio : ℚ := 0.7

/-- BUSINESS_CONSTANTS.CHANNEL_SPLITS.META_FRANCHISE_RATIO -/
def metaFranchiseRatio : ℚ := 0.3

/-- JavaScript `Math.round`: nearest integer, halves toward +∞. -/
def jsRound (x : ℚ) : ℤ := Int.floor (x + 1/2)

/-- JavaScript division where the denominator may be zero: `none` stands
for the non-finite JS results (`x/0` is `±Infinity`, `0/0` is `NaN`). -/
def jsDiv (a b : ℚ) : Option ℚ := if b = 0 then none else some (a / b)

/-- Source line 53: `rmfRegionCount * serviceLeadsPerWeekRMF * WEEKS_PER_YEAR`. -/
def rmfServiceLeadsAnnual (i : Inputs) : ℚ :=
  i.rmfRegionCount * i.serviceLeadsPerWeekRMF * weeksPerYear

/-- Source line 58: `aucklandServiceLeadsPerWeek * WEEKS_PER_YEAR`. -/
def aucklandServiceLeadsAnnual (i : Inputs) : ℚ :=
  i.aucklandServiceLeadsPerWeek * weeksPerYear

/-- Source line 62: sum of the two annualized service segments. -/
def totalServiceLeads (i : Inputs) : ℚ :=
  rmfServiceLeadsAnnual i + aucklandServiceLeadsAnnual i

/-- Source line 64: `franchiseLeadsPerMonth * MONTHS_PER_YEAR`. -/
def totalFranchiseLeads (i : Inputs) : ℚ :=
  i.franchiseLeadsPerMonth * monthsPerYear

/-- Source line 68: `commercialLeadsPerQuarter * QUARTERS_PER_YEAR`. -/
def totalCommercialLeads (i : Inputs) : ℚ :=
  i.commercialLeadsPerQuarter * quartersPerYear

/-- Source line 79: `totalServiceLeads * googleServiceSplit`. -/
def googleServiceLeads (i : Inputs) : ℚ :=
  totalServiceLeads i * i.googleServiceSplit

/-- Source line 80: `totalServiceLeads * (1 - googleServiceSplit)`. -/
def metaServiceLeads (i : Inputs) : ℚ :=
  totalServiceLeads i * (1 - i.googleServiceSplit)

/-- Source line 82: `googleServiceLeads * googleServiceCPL`. -/
def googleServiceBudget (i : Inputs) : ℚ :=
  googleServiceLeads i * i.googleServiceCPL

/-- Source line 83: `metaServiceLeads * metaServiceCPL`. -/
def metaServiceBudget (i : Inputs) : ℚ :=
  metaServiceLeads i * i.metaServiceCPL

/-- Source line 91: `totalFranchiseLeads * GOOGLE_FRANCHISE_RATIO * googleFranchiseCPL`. -/
def googleFranchiseBudget (i : Inputs) : ℚ :=
  totalFranchiseLeads i * googleFranchiseRatio * i.googleFranchiseCPL

/-- Source line 96: `totalFranchiseLeads * META_FRANCHISE_RATIO * metaFranchiseCPL`. -/
def metaFranchiseBudget (i : Inputs) : ℚ :=
  totalFranchiseLeads i * metaFranchiseRatio * i.metaFranchiseCPL

/-- Source line 107: `totalCommercialLeads * linkedInCommercialCPL`. -/
def commercialBudget (i : Inputs) : ℚ :=
  totalCommercialLeads i * i.linkedInCommercialCPL

/-- Source line 113: `googleServiceBudget + googleFranchiseBudget`. -/
def totalGoogleBudget (i : Inputs) : ℚ :=
  googleServiceBudget i + googleFranchiseBudget i

/-- Source line 114: `metaServiceBudget + metaFranchiseBudget`. -/
def totalMetaBudget (i : Inputs) : ℚ :=
  metaServiceBudget i + metaFranchiseBudget i

/-- Source line 115: `totalGoogleBudget + totalMetaBudget + commercialBudget`. -/
def totalPaidAds (i : Inputs) : ℚ :=
  totalGoogleBudget i + totalMetaBudget i + commercialBudget i

/-- Source line 125: `avgMonthlyServiceFee * avgCustomerRetentionMonths`. -/
def customerLTV (i : Inputs) : ℚ :=
  i.avgMonthlyServiceFee * i.avgCustomerRetentionMonths

/-- Source line 126: `totalServiceLeads * serviceLeadConversionRate`
(the exact, unrounded converted-customer count). -/
def convertedCustomers (i : Inputs) : ℚ :=
  totalServiceLeads i * i.serviceLeadConversionRate

/-- Source line 127: `convertedCustomers * customerLTV`. -/
def totalRevenue (i : Inputs) : ℚ :=
  convertedCustomers i * customerLTV i

/-- Source lines 134-136: guarded ROI.  The division happens only under
the `totalPaidAds > 0` guard, so the denominator is nonzero and the ℚ
transcription agrees with the JS value. -/
def roi (i : Inputs) : ℚ :=
  if totalPaidAds i > 0 then (totalRevenue i - totalPaidAds i) / totalPaidAds i * 100
  else 0

/-- Source lines 139-141: guarded cost per acquisition. -/
def costPerAcquisition (i : Inputs) : ℚ :=
  if convertedCustomers i > 0 then totalPaidAds i / convertedCustomers i
  else 0

/-- Source lines 144-146: guarded LTV:CAC ratio. -/
def ltvCacRatio (i : Inputs) : ℚ :=
  if costPerAcquisition i > 0 then customerLTV i / costPerAcquisition i
  else 0

/-- Source line 190: `totalPaidAds / (totalServiceLeads + totalFranchiseLeads +
totalCommercialLeads)` — the one UNguarded division, hence `jsDiv`. -/
def averageCPL (i : Inputs) : Option ℚ :=
  jsDiv (totalPaidAds i)
    (totalServiceLeads i + totalFranchiseLeads i + totalCommercialLeads i)

/-- `leadMetrics` sub-record of the return value (source lines 155-162);
every field passes through `Math.round` in the source. -/
structure LeadMetrics where
  rmfServiceLeadsAnnual : ℤ
  aucklandServiceLeadsAnnual : ℤ
  totalServiceLeads : ℤ
  totalFranchiseLeads : ℤ
  totalCommercialLeads : ℤ
  totalLeads : ℤ
deriving DecidableEq, Repr

/-- `channelLeads` sub-record (source lines 165-168); both fields rounded. -/
structure ChannelLeads where
  googleServiceLeads : ℤ
  metaServiceLeads : ℤ
deriving DecidableEq, Repr

/-- `budgetAllocation` sub-record (source lines 171-180); no rounding. -/
structure BudgetAllocation where
  googleServiceBudget : ℚ
  metaServiceBudget : ℚ
  googleFranchiseBudget : ℚ
  metaFranchiseBudget : ℚ
  commercialBudget : ℚ
  totalGoogleBudget : ℚ
  totalMetaBudget : ℚ
  totalPaidAds : ℚ
deriving DecidableEq, Repr

/-- `financialMetrics` sub-record (source lines 183-191); only
`convertedCustomers` is rounded. -/
structure FinancialMetrics where
  customerLTV : ℚ
  convertedCustomers : ℤ
  totalRevenue : ℚ
  roi : ℚ
  costPerAcquisition : ℚ
  ltvCacRatio : ℚ
  averageCPL : Option ℚ
deriving DecidableEq, Repr

/-- The full derived record returned by the engine (source lines 153-192). -/
structure CalcResult where
  leadMetrics : LeadMetrics
  channelLeads : ChannelLeads
  budgetAllocation : BudgetAllocation
  financialMetrics : FinancialMetrics
deriving DecidableEq, Repr

/-- The calculation engine `useMarketingCalculations`
(src/unnamed/part_001, lines 29-209), transcribed statement by
statement; the `useMemo` wrapper is a recomputation-avoidance detail
with no semantic content and is omitted. -/
def useMarketingCalculations (i : Inputs) : CalcResult :=
  { leadMetrics :=
      { rmfServiceLeadsAnnual := jsRound (rmfServiceLeadsAnnual i)
        aucklandServiceLeadsAnnual := jsRound (aucklandServiceLeadsAnnual i)
        totalServiceLeads := jsRound (totalServiceLeads i)
        totalFranchiseLeads := jsRound (totalFranchiseLeads i)
        totalCommercialLeads := jsRound (totalCommercialLeads i)
        totalLeads := jsRound (totalServiceLeads i + totalFranchiseLeads i + totalCommercialLeads i) }
    channelLeads :=
      { googleServiceLeads := jsRound (googleServiceLeads i)
        metaServiceLeads := jsRound (metaServiceLeads i) }
    budgetAllocation :=
      { googleServiceBudget := googleServiceBudget i
        metaServiceBudget := metaServiceBudget i
        googleFranchiseBudget := googleFranchiseBudget i
        metaFranchiseBudget := metaFranchiseBudget i
        commercialBudget := commercialBudget i
        totalGoogleBudget := totalGoogleBudget i
        totalMetaBudget := totalMetaBudget i
        totalPaidAds := totalPaidAds i }
    financialMetrics :=
      { customerLTV := customerLTV i
        convertedCustomers := jsRound (convertedCustomers i)
        totalRevenue := totalRevenue i
        roi := roi i
        costPerAcquisition := costPerAcquisition i
        ltvCacRatio := ltvCacRatio i
        averageCPL := averageCPL i } }

/-- Validity domain of the input record per the specification (section 3):
non-negative lead rates and region count, positive CPL values,
conversion rate and channel split fraction in [0,1], non-negative fee
and retention duration. -/
abbrev ValidInputs (i : Inputs) : Prop :=
  0 ≤ i.rmfRegionCount ∧ 0 ≤ i.serviceLeadsPerWeekRMF ∧
  0 ≤ i.aucklandServiceLeadsPerWeek ∧ 0 ≤ i.franchiseLeadsPerMonth ∧
  0 ≤ i.commercialLeadsPerQuarter ∧
  0 < i.googleServiceCPL ∧ 0 < i.metaServiceCPL ∧
  0 < i.googleFranchiseCPL ∧ 0 < i.metaFranchiseCPL ∧
  0 < i.linkedInCommercialCPL ∧
  0 ≤ i.avgMonthlyServiceFee ∧ 0 ≤ i.avgCustomerRetentionMonths ∧
  0 ≤ i.serviceLeadConversionRate ∧ i.serviceLeadConversionRate ≤ 1 ∧
  0 ≤ i.googleServiceSplit ∧ i.googleServiceSplit ≤ 1

/-- The bounds the upstream validation collaborator clamps each field to,
from BUSINESS_CONSTANTS (src/utils/constants.js): REGIONS MIN/MAX,
VALIDATION.LEADS, VALIDATION.CPL, VALIDATION.LTV (conversion-rate and
split bounds are percentages there, fractions here). -/
abbrev InValidationBounds (i : Inputs) : Prop :=
  1 ≤ i.rmfRegionCount ∧ i.rmfRegionCount ≤ 20 ∧
  1 ≤ i.serviceLeadsPerWeekRMF ∧ i.serviceLeadsPerWeekRMF ≤ 50 ∧
  1 ≤ i.aucklandServiceLeadsPerWeek ∧ i.aucklandServiceLeadsPerWeek ≤ 200 ∧
  1 ≤ i.franchiseLeadsPerMonth ∧ i.franchiseLeadsPerMonth ≤ 20 ∧
  1 ≤ i.commercialLeadsPerQuarter ∧ i.commercialLeadsPerQuarter ≤ 10 ∧
  1 ≤ i.googleServiceCPL ∧ i.googleServiceCPL ≤ 100 ∧
  1 ≤ i.metaServiceCPL ∧ i.metaServiceCPL ≤ 100 ∧
  1 ≤ i.googleFranchiseCPL ∧ i.googleFranchiseCPL ≤ 100 ∧
  1 ≤ i.metaFranchiseCPL ∧ i.metaFranchiseCPL ≤ 100 ∧
  1 ≤ i.linkedInCommercialCPL ∧ i.linkedInCommercialCPL ≤ 200 ∧
  50 ≤ i.avgMonthlyServiceFee ∧ i.avgMonthlyServiceFee ≤ 500 ∧
  6 ≤ i.avgCustomerRetentionMonths ∧ i.avgCustomerRetentionMonths ≤ 60 ∧
  1/20 ≤ i.serviceLeadConversionRate ∧ i.serviceLeadConversionRate ≤ 1/2 ∧
  1/2 ≤ i.googleServiceSplit ∧ i.googleServiceSplit ≤ 1

/-- Scenario A default inputs (spec section 8; defaults from
BUSINESS_CONSTANTS in src/utils/constants.js). -/
def defaultInputs : Inputs :=
  { rmfRegionCount := 13
    serviceLeadsPerWeekRMF := 15
    aucklandServiceLeadsPerWeek := 100
    franchiseLeadsPerMonth := 5
    commercialLeadsPerQuarter := 1
    googleServiceCPL := 10
    metaServiceCPL := 8
    googleFranchiseCPL := 15
    metaFranchiseCPL := 12
    linkedInCommercialCPL := 50
    avgMonthlyServiceFee := 120
    avgCustomerRetentionMonths := 24
    serviceLeadConversionRate := 0.25
    googleServiceSplit := 0.85 }

/-- All-zero input record: zero lead volumes give zero spend and a
zero-leads denominator for the unguarded average-CPL division. -/
def zeroInputs : Inputs :=
  { rmfRegionCount := 0
    serviceLeadsPerWeekRMF := 0
    aucklandServiceLeadsPerWeek := 0
    franchiseLeadsPerMonth := 0
    commercialLeadsPerQuarter := 0
    googleServiceCPL := 0
    metaServiceCPL := 0
    googleFranchiseCPL := 0
    metaFranchiseCPL := 0
    linkedInCommercialCPL := 0
    avgMonthlyServiceFee := 0
    avgCustomerRetentionMonths := 0
    serviceLeadConversionRate := 0
    googleServiceSplit := 0 }

/-- Defaults with Auckland rate 105/52 per week and an even service
split: total service leads 10245, so both channel buckets are the
half-integer 5122.5 and each rounds up. -/
def halfSplitInputs : Inputs :=
  { defaultInputs with
    aucklandServiceLeadsPerWeek := 105/52
    googleServiceSplit := 1/2 }

/-- Defaults with one region at 105/104 leads per week and the same
Auckland rate: both annualized service segments are the half-integer
52.5 and each rounds up. -/
def halfSegmentInputs : Inputs :=
  { defaultInputs with
    rmfRegionCount := 1
    serviceLeadsPerWeekRMF := 105/104
    aucklandServiceLeadsPerWeek := 105/104 }

/-- Defaults with 15.5 RMF leads per week: the exact converted-customer
count is the non-integer 3919.5. -/
def nonIntConvInputs : Inputs :=
  { defaultInputs with serviceLeadsPerWeekRMF := 31/2 }

/-- Defaults with fractional service and franchise segments (52.5 and
3.5 annualized) and zero commercial leads: the rounded segments sum to
57 while the exact total 56 rounds to 56. -/
def mixedSegmentInputs : Inputs :=
  { defaultInputs with
    rmfRegionCount := 0
    serviceLeadsPerWeekRMF := 0
    aucklandServiceLeadsPerWeek := 105/104
    franchiseLeadsPerMonth := 7/24
    commercialLeadsPerQuarter := 0 }

/-- C4: For the default Scenario A inputs (13 regions, 15 RMF leads/week,
100 Auckland leads/week, 5 franchise leads/month, 1 commercial
lead/quarter, monthly fee 120, retention 24 months), the engine returns
total service leads 15340 = 13 times 15 times 52 plus 100 times 52, total
franchise leads 60 = 5 times 12, total commercial leads 4 = 1 times 4, and
customer LTV 2880 = 120 times 24. -/
theorem scenarioA_default_values :
    (useMarketingCalculations defaultInputs).leadMetrics.totalServiceLeads = 15340 ∧
    (useMarketingCalculations defaultInputs).leadMetrics.totalFranchiseLeads = 60 ∧
    (useMarketingCalculations defaultInputs).leadMetrics.totalCommercialLeads = 4 ∧
    (useMarketingCalculations defaultInputs).financialMetrics.customerLTV = 2880 ∧
    totalServiceLeads defaultInputs = 15340 ∧
    totalFranchiseLeads defaultInputs = 60 ∧
    totalCommercialLeads defaultInputs = 4 ∧
    customerLTV defaultInputs = 2880 := by
  refine ⟨?_, ?_, ?_, ?_, ?_, ?_, ?_, ?_⟩ <;>
    norm_num [useMarketingCalculations, jsRound, totalServiceLeads, rmfServiceLeadsAnnual,
      aucklandServiceLeadsAnnual, totalFranchiseLeads, totalCommercialLeads, customerLTV,
      weeksPerYear, monthsPerYear, quartersPerYear, defaultInputs]

/-- C2: the three guarded return metrics are total rational values (hence
never non-finite), and the guards yield zero at the degenerate points:
when total paid spend is 0 the ROI is 0, when the exact
converted-customer count is 0 the cost per acquisition is 0, and when the
cost per acquisition is 0 the LTV:CAC ratio is 0. -/
theorem guarded_metrics_zero_at_degenerate (i : Inputs) :
    ((useMarketingCalculations i).budgetAllocation.totalPaidAds = 0 →
      (useMarketingCalculations i).financialMetrics.roi = 0) ∧
    (convertedCustomers i = 0 →
      (useMarketingCalculations i).financialMetrics.costPerAcquisition = 0) ∧
    ((useMarketingCalculations i).financialMetrics.costPerAcquisition = 0 →
      (useMarketingCalculations i).financialMetrics.ltvCacRatio = 0) := by
  refine ⟨fun h => ?_, fun h => ?_, fun h => ?_⟩
  · show roi i = 0
    have hz : totalPaidAds i = 0 := h
    simp [roi, hz]
  · show costPerAcquisition i = 0
    simp [costPerAcquisition, h]
  · show ltvCacRatio i = 0
    have hz : costPerAcquisition i = 0 := h
    simp [ltvCacRatio, hz]

/-- Witness for C2 at the all-zero input: spend, converted customers and
cost per acquisition are all 0 there, and the three guarded metrics are 0. -/
theorem guarded_metrics_zero_at_degenerate_witness :
    (useMarketingCalculations zeroInputs).budgetAllocation.totalPaidAds = 0 ∧
    convertedCustomers zeroInputs = 0 ∧
    (useMarketingCalculations zeroInputs).financialMetrics.roi = 0 ∧
    (useMarketingCalculations zeroInputs).financialMetrics.costPerAcquisition = 0 ∧
    (useMarketingCalculations zeroInputs).financialMetrics.ltvCacRatio = 0 := by
  have h1 : (useMarketingCalculations zeroInputs).budgetAllocation.totalPaidAds = 0 := by
    norm_num [useMarketingCalculations, totalPaidAds, totalGoogleBudget, totalMetaBudget,
      googleServiceBudget, metaServiceBudget, googleFranchiseBudget, metaFranchiseBudget,
      commercialBudget, googleServiceLeads, metaServiceLeads, totalServiceLeads,
      rmfServiceLeadsAnnual, aucklandServiceLeadsAnnual, totalFranchiseLeads,
      totalCommercialLeads, weeksPerYear, monthsPerYear, quartersPerYear, zeroInputs]
  have h2 : convertedCustomers zeroInputs = 0 := by
    norm_num [convertedCustomers, totalServiceLeads, rmfServiceLeadsAnnual,
      aucklandServiceLeadsAnnual, weeksPerYear, zeroInputs]
  have h3 := (guarded_metrics_zero_at_degenerate zeroInputs).2.1 h2
  exact ⟨h1, h2, (guarded_metrics_zero_at_degenerate zeroInputs).1 h1, h3,
    (guarded_metrics_zero_at_degenerate zeroInputs).2.2 h3⟩

/-- C3: the blended average CPL is total paid spend divided by the sum of
the three annualized lead segments, with no zero-denominator guard: when
that sum is 0 the returned averageCPL is the non-finite marker `none`
(never the guarded fallback 0), and otherwise it is the exact quotient. -/
theorem averageCPL_unguarded (i : Inputs) :
    (totalServiceLeads i + totalFranchiseLeads i + totalCommercialLeads i = 0 →
      (useMarketingCalculations i).financialMetrics.averageCPL = none) ∧
    (totalServiceLeads i + totalFranchiseLeads i + totalCommercialLeads i ≠ 0 →
      (useMarketingCalculations i).financialMetrics.averageCPL =
        some (totalPaidAds i /
          (totalServiceLeads i + totalFranchiseLeads i + totalCommercialLeads i))) := by
  constructor
  · intro h
    show averageCPL i = none
    simp [averageCPL, jsDiv, h]
  · intro h
    show averageCPL i = some _
    simp [averageCPL, jsDiv, h]

/-- Witness for C3 at the all-zero input: the three annualized segments
sum to 0 and the returned averageCPL is the non-finite marker. -/
theorem averageCPL_unguarded_witness :
    totalServiceLeads zeroInputs + totalFranchiseLeads zeroInputs +
      totalCommercialLeads zeroInputs = 0 ∧
    (useMarketingCalculations zeroInputs).financialMetrics.averageCPL = none := by
  have h : totalServiceLeads zeroInputs + totalFranchiseLeads zeroInputs +
      totalCommercialLeads zeroInputs = 0 := by
    norm_num [totalServiceLeads, rmfServiceLeadsAnnual, aucklandServiceLeadsAnnual,
      totalFranchiseLeads, totalCommercialLeads, weeksPerYear, monthsPerYear,
      quartersPerYear, zeroInputs]
  exact ⟨h, (averageCPL_unguarded zeroInputs).1 h⟩

/-- C5 counterexample: with the default inputs, an Auckland rate of
105/52 leads per week and an even split, the two service buckets are
both exactly 5122.5, so the reported (rounded) channelLeads fields sum
to 10246 while the total service lead count is 10245 — the reported
fields miss conservation by a whole lead, beyond any floating-point
tolerance. -/
theorem split_conservation_reported_counterexample :
    (useMarketingCalculations halfSplitInputs).channelLeads.googleServiceLeads +
      (useMarketingCalculations halfSplitInputs).channelLeads.metaServiceLeads = 10246 ∧
    (useMarketingCalculations halfSplitInputs).leadMetrics.totalServiceLeads = 10245 ∧
    (useMarketingCalculations halfSplitInputs).channelLeads.googleServiceLeads +
      (useMarketingCalculations halfSplitInputs).channelLeads.metaServiceLeads ≠
      (useMarketingCalculations halfSplitInputs).leadMetrics.totalServiceLeads := by
  refine ⟨?_, ?_, ?_⟩ <;>
    norm_num [useMarketingCalculations, jsRound, googleServiceLeads, metaServiceLeads,
      totalServiceLeads, rmfServiceLeadsAnnual, aucklandServiceLeadsAnnual, weeksPerYear,
      halfSplitInputs, defaultInputs]

/-- C5 amended: the two unrounded service-channel buckets conserve the
total exactly — totalServiceLeads times s plus totalServiceLeads times
(1 - s) equals totalServiceLeads for every input record and hence every
split fraction; the rounded channelLeads fields reported by the engine
can exceed the total by one when both buckets land on half-integers. -/
theorem split_conservation_exact (i : Inputs) :
    googleServiceLeads i + metaServiceLeads i = totalServiceLeads i := by
  unfold googleServiceLeads metaServiceLeads
  ring

/-- C6 counterexample: with one region at 105/104 leads per week and the
same Auckland rate, both annualized segments are exactly 52.5; the
reported segment fields round to 53 each while the reported total is
105, so additivity fails on the returned leadMetrics record. -/
theorem segment_additivity_reported_counterexample :
    (useMarketingCalculations halfSegmentInputs).leadMetrics.rmfServiceLeadsAnnual +
      (useMarketingCalculations halfSegmentInputs).leadMetrics.aucklandServiceLeadsAnnual = 106 ∧
    (useMarketingCalculations halfSegmentInputs).leadMetrics.totalServiceLeads = 105 ∧
    (useMarketingCalculations halfSegmentInputs).leadMetrics.totalServiceLeads ≠
      (useMarketingCalculations halfSegmentInputs).leadMetrics.rmfServiceLeadsAnnual +
      (useMarketingCalculations halfSegmentInputs).leadMetrics.aucklandServiceLeadsAnnual := by
  refine ⟨?_, ?_, ?_⟩ <;>
    norm_num [useMarketingCalculations, jsRound, totalServiceLeads, rmfServiceLeadsAnnual,
      aucklandServiceLeadsAnnual, weeksPerYear, halfSegmentInputs, defaultInputs]

/-- C6 amended: the exact (unrounded) total service lead count equals
the sum of the annualized RMF and Auckland segments for every input, and
the returned totalServiceLeads field is the rounding of that exact sum;
the returned field need not equal the sum of the two separately rounded
segment fields when the segments are non-integers. -/
theorem segment_additivity_exact (i : Inputs) :
    totalServiceLeads i = rmfServiceLeadsAnnual i + aucklandServiceLeadsAnnual i ∧
    (useMarketingCalculations i).leadMetrics.totalServiceLeads =
      jsRound (rmfServiceLeadsAnnual i + aucklandServiceLeadsAnnual i) :=
  ⟨rfl, rfl⟩

/-- C1 counterexample: with 15.5 RMF leads per week per region the exact
converted-customer count is 3919.5, but the engine returns the rounded
value 3920 in financialMetrics.convertedCustomers — the engine does
round count fields before returning. -/
theorem engine_returns_rounded_counts_counterexample :
    convertedCustomers nonIntConvInputs = 7839/2 ∧
    (useMarketingCalculations nonIntConvInputs).financialMetrics.convertedCustomers = 3920 ∧
    ((useMarketingCalculations nonIntConvInputs).financialMetrics.convertedCustomers : ℚ) ≠
      convertedCustomers nonIntConvInputs := by
  refine ⟨?_, ?_, ?_⟩ <;>
    norm_num [useMarketingCalculations, jsRound, convertedCustomers, totalServiceLeads,
      rmfServiceLeadsAnnual, aucklandServiceLeadsAnnual, weeksPerYear,
      nonIntConvInputs, defaultInputs]

/-- C1 amended: the engine returns every monetary field (the eight
budgetAllocation fields and customerLTV, totalRevenue, roi,
costPerAcquisition, ltvCacRatio, averageCPL) at the exact, unrounded
value of its defining formula, but rounds every count field (the six
leadMetrics fields, the two channelLeads fields, and convertedCustomers)
to the nearest integer before returning. -/
theorem engine_rounds_counts_only (i : Inputs) :
    ((useMarketingCalculations i).budgetAllocation.googleServiceBudget = googleServiceBudget i ∧
     (useMarketingCalculations i).budgetAllocation.metaServiceBudget = metaServiceBudget i ∧
     (useMarketingCalculations i).budgetAllocation.googleFranchiseBudget = googleFranchiseBudget i ∧
     (useMarketingCalculations i).budgetAllocation.metaFranchiseBudget = metaFranchiseBudget i ∧
     (useMarketingCalculations i).budgetAllocation.commercialBudget = commercialBudget i ∧
     (useMarketingCalculations i).budgetAllocation.totalGoogleBudget = totalGoogleBudget i ∧
     (useMarketingCalculations i).budgetAllocation.totalMetaBudget = totalMetaBudget i ∧
     (useMarketingCalculations i).budgetAllocation.totalPaidAds = totalPaidAds i) ∧
    ((useMarketingCalculations i).financialMetrics.customerLTV = customerLTV i ∧
     (useMarketingCalculations i).financialMetrics.totalRevenue = totalRevenue i ∧
     (useMarketingCalculations i).financialMetrics.roi = roi i ∧
     (useMarketingCalculations i).financialMetrics.costPerAcquisition = costPerAcquisition i ∧
     (useMarketingCalculations i).financialMetrics.ltvCacRatio = ltvCacRatio i ∧
     (useMarketingCalculations i).financialMetrics.averageCPL = averageCPL i) ∧
    ((useMarketingCalculations i).leadMetrics.rmfServiceLeadsAnnual =
        jsRound (rmfServiceLeadsAnnual i) ∧
     (useMarketingCalculations i).leadMetrics.aucklandServiceLeadsAnnual =
        jsRound (aucklandServiceLeadsAnnual i) ∧
     (useMarketingCalculations i).leadMetrics.totalServiceLeads =
        jsRound (totalServiceLeads i) ∧
     (useMarketingCalculations i).leadMetrics.totalFranchiseLeads =
        jsRound (totalFranchiseLeads i) ∧
     (useMarketingCalculations i).leadMetrics.totalCommercialLeads =
        jsRound (totalCommercialLeads i) ∧
     (useMarketingCalculations i).leadMetrics.totalLeads =
        jsRound (totalServiceLeads i + totalFranchiseLeads i + totalCommercialLeads i) ∧
     (useMarketingCalculations i).channelLeads.googleServiceLeads =
        jsRound (googleServiceLeads i) ∧
     (useMarketingCalculations i).channelLeads.metaServiceLeads =
        jsRound (metaServiceLeads i) ∧
     (useMarketingCalculations i).financialMetrics.convertedCustomers =
        jsRound (convertedCustomers i)) :=
  ⟨⟨rfl, rfl, rfl, rfl, rfl, rfl, rfl, rfl⟩,
   ⟨rfl, rfl, rfl, rfl, rfl, rfl⟩,
   ⟨rfl, rfl, rfl, rfl, rfl, rfl, rfl, rfl, rfl⟩⟩

/-- C10: for every input the returned totalLeads field is the rounding
of the exact sum of the three annualized segments (rounded after
summing); at the concrete input with segments 52.5, 3.5 and 0 it differs
from the sum 57 of the three separately rounded segment fields, whose
exact total 56 rounds to 56. -/
theorem totalLeads_rounds_after_summing :
    (∀ i : Inputs, (useMarketingCalculations i).leadMetrics.totalLeads =
      jsRound (totalServiceLeads i + totalFranchiseLeads i + totalCommercialLeads i)) ∧
    (useMarketingCalculations mixedSegmentInputs).leadMetrics.totalLeads = 56 ∧
    (useMarketingCalculations mixedSegmentInputs).leadMetrics.totalServiceLeads +
      (useMarketingCalculations mixedSegmentInputs).leadMetrics.totalFranchiseLeads +
      (useMarketingCalculations mixedSegmentInputs).leadMetrics.totalCommercialLeads = 57 := by
  refine ⟨fun i => rfl, ?_, ?_⟩ <;>
    norm_num [useMarketingCalculations, jsRound, totalServiceLeads, rmfServiceLeadsAnnual,
      aucklandServiceLeadsAnnual, totalFranchiseLeads, totalCommercialLeads, weeksPerYear,
      monthsPerYear, quartersPerYear, mixedSegmentInputs, defaultInputs]

/-- C7: for a valid input record, raising any one CPL input while all
lead-volume inputs and the split fraction stay fixed never decreases the
corresponding channel budget field nor the grand total totalPaidAds:
each of the five budgets is monotone non-decreasing in its CPL. -/
theorem cpl_monotonicity (i : Inputs) (h : ValidInputs i) (v w : ℚ) (hvw : v ≤ w) :
    ((useMarketingCalculations { i with googleServiceCPL := v }).budgetAllocation.googleServiceBudget ≤
       (useMarketingCalculations { i with googleServiceCPL := w }).budgetAllocation.googleServiceBudget ∧
     (useMarketingCalculations { i with googleServiceCPL := v }).budgetAllocation.totalPaidAds ≤
       (useMarketingCalculations { i with googleServiceCPL := w }).budgetAllocation.totalPaidAds) ∧
    ((useMarketingCalculations { i with metaServiceCPL := v }).budgetAllocation.metaServiceBudget ≤
       (useMarketingCalculations { i with metaServiceCPL := w }).budgetAllocation.metaServiceBudget ∧
     (useMarketingCalculations { i with metaServiceCPL := v }).budgetAllocation.totalPaidAds ≤
       (useMarketingCalculations { i with metaServiceCPL := w }).budgetAllocation.totalPaidAds) ∧
    ((useMarketingCalculations { i with googleFranchiseCPL := v }).budgetAllocation.googleFranchiseBudget ≤
       (useMarketingCalculations { i with googleFranchiseCPL := w }).budgetAllocation.googleFranchiseBudget ∧
     (useMarketingCalculations { i with googleFranchiseCPL := v }).budgetAllocation.totalPaidAds ≤
       (useMarketingCalculations { i with googleFranchiseCPL := w }).budgetAllocation.totalPaidAds) ∧
    ((useMarketingCalculations { i with metaFranchiseCPL := v }).budgetAllocation.metaFranchiseBudget ≤
       (useMarketingCalculations { i with metaFranchiseCPL := w }).budgetAllocation.metaFranchiseBudget ∧
     (useMarketingCalculations { i with metaFranchiseCPL := v }).budgetAllocation.totalPaidAds ≤
       (useMarketingCalculations { i with metaFranchiseCPL := w }).budgetAllocation.totalPaidAds) ∧
    ((useMarketingCalculations { i with linkedInCommercialCPL := v }).budgetAllocation.commercialBudget ≤
       (useMarketingCalculations { i with linkedInCommercialCPL := w }).budgetAllocation.commercialBudget ∧
     (useMarketingCalculations { i with linkedInCommercialCPL := v }).budgetAllocation.totalPaidAds ≤
       (useMarketingCalculations { i with linkedInCommercialCPL := w }).budgetAllocation.totalPaidAds) := by
  obtain ⟨h1, h2, h3, h4, h5, _, _, _, _, _, _, _, _, _, h15, h16⟩ := h
  have hts : 0 ≤ totalServiceLeads i := by
    have ha := mul_nonneg (mul_nonneg h1 h2) (by norm_num : (0:ℚ) ≤ 52)
    have hb := mul_nonneg h3 (by norm_num : (0:ℚ) ≤ 52)
    unfold totalServiceLeads rmfServiceLeadsAnnual aucklandServiceLeadsAnnual weeksPerYear
    linarith
  have hgl : 0 ≤ googleServiceLeads i := mul_nonneg hts h15
  have hml : 0 ≤ metaServiceLeads i := mul_nonneg hts (by linarith)
  have hfl : 0 ≤ totalFranchiseLeads i := mul_nonneg h4 (by norm_num [monthsPerYear])
  have hcl : 0 ≤ totalCommercialLeads i := mul_nonneg h5 (by norm_num [quartersPerYear])
  have hfg : 0 ≤ totalFranchiseLeads i * googleFranchiseRatio :=
    mul_nonneg hfl (by norm_num [googleFranchiseRatio])
  have hfm : 0 ≤ totalFranchiseLeads i * metaFranchiseRatio :=
    mul_nonneg hfl (by norm_num [metaFranchiseRatio])
  refine ⟨⟨?_, ?_⟩, ⟨?_, ?_⟩, ⟨?_, ?_⟩, ⟨?_, ?_⟩, ⟨?_, ?_⟩⟩
  · exact mul_le_mul_of_nonneg_left hvw hgl
  · show googleServiceLeads i * v + googleFranchiseBudget i +
        (metaServiceBudget i + metaFranchiseBudget i) + commercialBudget i ≤
      googleServiceLeads i * w + googleFranchiseBudget i +
        (metaServiceBudget i + metaFranchiseBudget i) + commercialBudget i
    have hm := mul_le_mul_of_nonneg_left hvw hgl
    linarith
  · exact mul_le_mul_of_nonneg_left hvw hml
  · show googleServiceBudget i + googleFranchiseBudget i +
        (metaServiceLeads i * v + metaFranchiseBudget i) + commercialBudget i ≤
      googleServiceBudget i + googleFranchiseBudget i +
        (metaServiceLeads i * w + metaFranchiseBudget i) + commercialBudget i
    have hm := mul_le_mul_of_nonneg_left hvw hml
    linarith
  · exact mul_le_mul_of_nonneg_left hvw hfg
  · show googleServiceBudget i + totalFranchiseLeads i * googleFranchiseRatio * v +
        (metaServiceBudget i + metaFranchiseBudget i) + commercialBudget i ≤
      googleServiceBudget i + totalFranchiseLeads i * googleFranchiseRatio * w +
        (metaServiceBudget i + metaFranchiseBudget i) + commercialBudget i
    have hm := mul_le_mul_of_nonneg_left hvw hfg
    linarith
  · exact mul_le_mul_of_nonneg_left hvw hfm
  · show googleServiceBudget i + googleFranchiseBudget i +
        (metaServiceBudget i + totalFranchiseLeads i * metaFranchiseRatio * v) +
        commercialBudget i ≤
      googleServiceBudget i + googleFranchiseBudget i +
        (metaServiceBudget i + totalFranchiseLeads i * metaFranchiseRatio * w) +
        commercialBudget i
    have hm := mul_le_mul_of_nonneg_left hvw hfm
    linarith
  · exact mul_le_mul_of_nonneg_left hvw hcl
  · show totalGoogleBudget i + totalMetaBudget i + totalCommercialLeads i * v ≤
      totalGoogleBudget i + totalMetaBudget i + totalCommercialLeads i * w
    have hm := mul_le_mul_of_nonneg_left hvw hcl
    linarith

/-- Witness for C7: the defaults are valid, 10 is at most 11, and raising
the Google service CPL from 10 to 11 raises neither-decreasing budget
and total spend accordingly. -/
theorem cpl_monotonicity_witness :
    ValidInputs defaultInputs ∧ (10 : ℚ) ≤ 11 ∧
    (useMarketingCalculations { defaultInputs with googleServiceCPL := 10 }).budgetAllocation.googleServiceBudget ≤
      (useMarketingCalculations { defaultInputs with googleServiceCPL := 11 }).budgetAllocation.googleServiceBudget ∧
    (useMarketingCalculations { defaultInputs with googleServiceCPL := 10 }).budgetAllocation.totalPaidAds ≤
      (useMarketingCalculations { defaultInputs with googleServiceCPL := 11 }).budgetAllocation.totalPaidAds := by
  have hv : ValidInputs defaultInputs := by norm_num [ValidInputs, defaultInputs]
  have h := cpl_monotonicity defaultInputs hv 10 11 (by norm_num)
  exact ⟨hv, by norm_num, h.1.1, h.1.2⟩

/-- C8: the three financial inputs avgMonthlyServiceFee,
avgCustomerRetentionMonths and serviceLeadConversionRate influence only
the financialMetrics record: two input records that differ only in those
fields give identical leadMetrics, channelLeads and budgetAllocation
records. -/
theorem financial_inputs_no_interference (i : Inputs) (fee ret conv : ℚ) :
    (useMarketingCalculations { i with
        avgMonthlyServiceFee := fee
        avgCustomerRetentionMonths := ret
        serviceLeadConversionRate := conv }).leadMetrics =
      (useMarketingCalculations i).leadMetrics ∧
    (useMarketingCalculations { i with
        avgMonthlyServiceFee := fee
        avgCustomerRetentionMonths := ret
        serviceLeadConversionRate := conv }).channelLeads =
      (useMarketingCalculations i).channelLeads ∧
    (useMarketingCalculations { i with
        avgMonthlyServiceFee := fee
        avgCustomerRetentionMonths := ret
        serviceLeadConversionRate := conv }).budgetAllocation =
      (useMarketingCalculations i).budgetAllocation :=
  ⟨rfl, rfl, rfl⟩

/-- C9: the returned totalRevenue is computed from the unrounded
converted-customer count — it equals totalServiceLeads times the
conversion rate times customerLTV for every input — and for every input
within the validation bounds whose exact converted-customer count is not
an integer it differs from the product of the returned (rounded)
convertedCustomers field and customerLTV. -/
theorem revenue_uses_unrounded_count :
    (∀ i : Inputs, (useMarketingCalculations i).financialMetrics.totalRevenue =
      totalServiceLeads i * i.serviceLeadConversionRate * customerLTV i) ∧
    (∀ i : Inputs, InValidationBounds i →
      (jsRound (convertedCustomers i) : ℚ) ≠ convertedCustomers i →
      (useMarketingCalculations i).financialMetrics.totalRevenue ≠
        ((useMarketingCalculations i).financialMetrics.convertedCustomers : ℚ) *
          customerLTV i) := by
  constructor
  · intro i
    rfl
  · intro i hb hne heq
    obtain ⟨_, _, _, _, _, _, _, _, _, _, _, _, _, _, _, _, _, _, _, _,
      hfee, _, hret, _, _, _, _, _⟩ := hb
    have hLTV : customerLTV i ≠ 0 := by
      have hf : (0:ℚ) < i.avgMonthlyServiceFee := by linarith
      have hr : (0:ℚ) < i.avgCustomerRetentionMonths := by linarith
      exact ne_of_gt (mul_pos hf hr)
    have heq2 : convertedCustomers i * customerLTV i =
        (jsRound (convertedCustomers i) : ℚ) * customerLTV i := heq
    exact hne (mul_right_cancel₀ hLTV heq2).symm

/-- Witness for C9: the 15.5-leads-per-week input is within the
validation bounds, its exact converted-customer count 3919.5 is not an
integer, and the returned revenue differs from the rounded-count
product. -/
theorem revenue_uses_unrounded_count_witness :
    InValidationBounds nonIntConvInputs ∧
    (jsRound (convertedCustomers nonIntConvInputs) : ℚ) ≠ convertedCustomers nonIntConvInputs ∧
    (useMarketingCalculations nonIntConvInputs).financialMetrics.totalRevenue ≠
      ((useMarketingCalculations nonIntConvInputs).financialMetrics.convertedCustomers : ℚ) *
        customerLTV nonIntConvInputs := by
  have hb : InValidationBounds nonIntConvInputs := by
    norm_num [InValidationBounds, nonIntConvInputs, defaultInputs]
  have hne : (jsRound (convertedCustomers nonIntConvInputs) : ℚ) ≠
      convertedCustomers nonIntConvInputs := by
    norm_num [jsRound, convertedCustomers, totalServiceLeads, rmfServiceLeadsAnnual,
      aucklandServiceLeadsAnnual, weeksPerYear, nonIntConvInputs, defaultInputs]
  exact ⟨hb, hne, revenue_uses_unrounded_count.2 nonIntConvInputs hb hne⟩
